import Mathlib

/-!
Verification of the staged content-generation pipeline of this repository
against its natural-language specification.

The definitions below are shallow embeddings of the Python source:

* `app/video_script/workflow.py` — `VideoScriptWorkflow` (`generate_script`,
  `_update_markdown_file`, `_write_chapters_with_visualization`,
  `_generate_markdown_preview`, `_ensure_minimum_content`,
  `_mark_generation_completed`, the Manim code-reference insertion);
* `app/rss_writer/agents/article_writer.py` — `ArticleWriterAgent`
  (`run`'s per-run state reset, the stall-detection counter in `think`,
  the section store in `act`, `_assemble_final_article`).

Python strings are Lean `String`s (both `len`/`String.length` count code
points), Python `None`-able values are `Option`s, Python dicts keyed by
`int` in insertion order are association lists `List (Nat × String)`, and
the filesystem visible to `_update_markdown_file` is a two-field record
(temp path, target path).  External nondeterminism (LLM calls, raised
asynchronous exceptions, I/O failures) is passed in as explicit parameters.
-/

/-! ### String helpers (Python `in`, `str.find`, slicing, `enumerate`) -/

/-- `listStartsWith sub s` is true iff `sub` is an initial segment of `s`
(char-by-char comparison, as Python's prefix test at one offset). -/
def listStartsWith : List Char → List Char → Bool
  | [], _ => true
  | _ :: _, [] => false
  | a :: sub, b :: s => a == b && listStartsWith sub s

/-- Index of the first occurrence of `sub` in `s` (Python `s.find(sub)`,
with `none` for `-1`).  An empty `sub` occurs at index 0, as in Python. -/
def listIndexOf (sub : List Char) : List Char → Option Nat
  | [] => if listStartsWith sub [] then some 0 else none
  | b :: s =>
    if listStartsWith sub (b :: s) then some 0
    else (listIndexOf sub s).map (· + 1)

/-- Python `sub in s` on strings. -/
def strContains (s sub : String) : Bool :=
  (listIndexOf sub.data s.data).isSome

/-- Python `s.find(sub)`: first index, or `-1` when absent. -/
def strFind (s sub : String) : Int :=
  match listIndexOf sub.data s.data with
  | some i => (i : Int)
  | none => -1

/-- Python `enumerate(xs, n)`. -/
def enumFrom {α : Type} (n : Nat) : List α → List (Nat × α)
  | [] => []
  | a :: t => (n, a) :: enumFrom (n + 1) t

/-- Python truthiness fallback `s or d` on strings. -/
def pyOr (s d : String) : String :=
  if s = "" then d else s

/-- Python truthiness fallback `xs or ds` on lists. -/
def pyOrL {α : Type} (xs ds : List α) : List α :=
  if xs.isEmpty then ds else xs

theorem str_append_ne_right (a b : String) (hb : b ≠ "") : a ++ b ≠ "" := by
  intro h
  apply hb
  have hd : (a ++ b).data = ("" : String).data := congrArg String.data h
  rw [String.data_append] at hd
  have hb' : b.data = [] := (List.append_eq_nil.mp hd).2
  cases b
  exact congrArg String.mk (by simpa using hb')

theorem str_append_ne_left (a b : String) (ha : a ≠ "") : a ++ b ≠ "" := by
  intro h
  apply ha
  have hd : (a ++ b).data = ("" : String).data := congrArg String.data h
  rw [String.data_append] at hd
  have ha' : a.data = [] := (List.append_eq_nil.mp hd).1
  cases a
  exact congrArg String.mk (by simpa using ha')

theorem ne_empty_of_length_le {s : String} {n : Nat} (hn : 0 < n)
    (h : n ≤ s.length) : s ≠ "" := by
  intro he
  subst he
  simp [String.length] at h
  omega

/-- `listIndexOf` really returns the index of the FIRST occurrence: the
pattern matches at the returned index and at no earlier index. -/
theorem listIndexOf_first (sub : List Char) :
    ∀ (s : List Char) (i : Nat), listIndexOf sub s = some i →
      listStartsWith sub (s.drop i) = true ∧
      ∀ j, j < i → listStartsWith sub (s.drop j) = false := by
  intro s
  induction s with
  | nil =>
    intro i h
    simp only [listIndexOf] at h
    by_cases hs : listStartsWith sub [] = true
    · rw [if_pos hs] at h
      cases h
      exact ⟨hs, fun j hj => by omega⟩
    · rw [if_neg hs] at h
      cases h
  | cons b s ih =>
    intro i h
    simp only [listIndexOf] at h
    by_cases hs : listStartsWith sub (b :: s) = true
    · rw [if_pos hs] at h
      cases h
      exact ⟨hs, fun j hj => by omega⟩
    · rw [if_neg hs] at h
      rcases Option.map_eq_some'.mp h with ⟨i', hi', rfl⟩
      rcases ih i' hi' with ⟨h1, h2⟩
      refine ⟨by simpa using h1, ?_⟩
      intro j hj
      match j with
      | 0 => simpa using Bool.eq_false_iff.mpr hs
      | j' + 1 => simpa using h2 j' (by omega)

/-! ### Video-script workflow data model (`app/video_script/workflow.py`) -/

/-- One chapter of the plan: `{"title": ..., "description": ...}`; a `none`
description models a missing `description` key (Python `dict.get`). -/
structure Chapter where
  title : String
  description : Option String
deriving DecidableEq

/-- The mutable fields of `VideoScriptWorkflow` that the rendering and
recovery helpers read (`__init__`, lines 36-42). -/
structure WorkflowState where
  keyword : String
  audience_level : String
  suggested_titles : List String
  selected_title : String
  chapters : List Chapter
  current_content : String
  manim_code_blocks : List (String × String)
deriving DecidableEq

/-- `chapter.get('description', '本章节描述未提供')`. -/
def chapterDescOr : Option String → String
  | some d => d
  | none => "本章节描述未提供"

/-- `_generate_markdown_preview(content)` (lines 246-307): the full
Markdown document that `_update_markdown_file` persists. -/
def generateMarkdownPreview (st : WorkflowState) (content : String) : String :=
  let titleLine :=
    if st.selected_title ≠ "" then "# " ++ st.selected_title
    else "# 关于" ++ st.keyword ++ "的技术视频脚本"
  let metaLines :=
    ["## 元数据", "", "- **关键词**: " ++ st.keyword,
     "- **目标受众**: " ++ st.audience_level, "- **生成状态**: 进行中...", ""]
  let titleSuggestions :=
    if st.suggested_titles ≠ [] then
      ["## 建议标题", ""] ++
        ((enumFrom 1 st.suggested_titles).map fun p => toString p.1 ++ ". " ++ p.2) ++ [""]
    else []
  let chosen :=
    if st.selected_title ≠ "" then ["> **已选择标题**: " ++ st.selected_title, ""] else []
  let chapterLines :=
    if st.chapters ≠ [] then
      ["## 章节结构", ""] ++
        ((enumFrom 1 st.chapters).flatMap fun p =>
          [toString p.1 ++ ". **" ++ p.2.title ++ "**"] ++
            (match p.2.description with
             | some d => if d ≠ "" then ["   - " ++ d] else []
             | none => [])) ++ [""]
    else []
  let blockLines :=
    if st.manim_code_blocks ≠ [] then
      ["", "## 已生成的可视化代码", ""] ++
        ((enumFrom 1 st.manim_code_blocks).flatMap fun p =>
          ["### 场景 " ++ toString p.1 ++ ": " ++ p.2.1, "", "```python", p.2.2, "```", ""])
    else []
  String.intercalate "\n"
    ([titleLine, ""] ++ metaLines ++ titleSuggestions ++ chosen ++ chapterLines ++
     ["## 视频脚本", "", content] ++ blockLines)

/-- The five default chapters substituted by `_ensure_minimum_content`
when `self.chapters` is empty (lines 919-925). -/
def ensureDefaultChapters : List Chapter :=
  [⟨"引言", some "介绍主题及其重要性"⟩,
   ⟨"基础概念", some "解释基本术语和概念"⟩,
   ⟨"核心技术原理", some "详细分析核心技术原理"⟩,
   ⟨"应用场景", some "探讨实际应用案例"⟩,
   ⟨"总结", some "总结主要观点并展望"⟩]

/-- `_ensure_minimum_content` (lines 892-940): the recovery content that
replaces `self.current_content` when the output is empty or too short. -/
def ensureMinimumContent (st : WorkflowState) : String :=
  let b0 := "# " ++ st.selected_title ++ "\n\n" ++
    "## 元数据\n\n" ++ "- **关键词**: " ++ st.keyword ++ "\n" ++
    "- **目标受众**: " ++ st.audience_level ++ "\n\n"
  let b1 :=
    if st.suggested_titles ≠ [] then
      b0 ++ "## 建议标题\n\n" ++
        String.join ((enumFrom 1 st.suggested_titles).map fun p =>
          toString p.1 ++ ". " ++ p.2 ++ "\n") ++ "\n"
    else b0
  let b2 :=
    if st.chapters ≠ [] then
      b1 ++ String.join ((enumFrom 1 st.chapters).map fun p =>
        "## " ++ toString p.1 ++ ". " ++ p.2.title ++ "\n\n" ++
        chapterDescOr p.2.description ++ "\n\n" ++ "本章节内容生成中...\n\n")
    else
      b1 ++ String.join ((enumFrom 1 ensureDefaultChapters).map fun p =>
        "## " ++ toString p.1 ++ ". " ++ p.2.title ++ "\n\n" ++
        chapterDescOr p.2.description ++ "\n\n" ++ "本章节内容待完善...\n\n")
  b2 ++ "## 总结\n\n" ++
    "本视频介绍了关于" ++ st.keyword ++ "的核心概念和应用。希望这些内容对您有所帮助，感谢观看！\n\n" ++
    "<!-- 注: 此内容为系统自动恢复生成，可能需要进一步完善 -->\n"

/-- The placeholder markers scanned by `_mark_generation_completed`
(line 959): `["内容生成中", "请稍候", "生成中...", "正在生成"]`. -/
def completionPlaceholders : List String :=
  ["内容生成中", "请稍候", "生成中...", "正在生成"]

/-- Python `any(ph in content for ph in placeholders)` over the
finalization placeholder list. -/
def containsAnyPlaceholder (s : String) : Bool :=
  completionPlaceholders.any fun p => strContains s p

/-- The sentinel suffix chosen by `_mark_generation_completed`
(line 946): `"error" if error else "completed"`. -/
def markStatus (error : Bool) : String :=
  if error then "error" else "completed"

/-- `_mark_generation_completed(error)` (lines 942-964), applied to the
current content of the output file.  Returns the sentinel status written
to `<output>.<status>` and the resulting content of the output file: when
a placeholder is detected the file is rewritten with
`_generate_markdown_preview(_ensure_minimum_content())`, otherwise it is
left unchanged.  (The sentinel write itself and the surrounding
try/except, which only logs, are not modelled.) -/
def markGenerationCompleted (st : WorkflowState) (error : Bool)
    (fileContent : String) : String × String :=
  let status := markStatus error
  if containsAnyPlaceholder fileContent then
    let recovered := ensureMinimumContent st
    let st' := { st with current_content := recovered }
    (status, generateMarkdownPreview st' recovered)
  else
    (status, fileContent)

/-! ### Durable persistence (`_update_markdown_file`, lines 176-244) -/

/-- The two files `_update_markdown_file` touches: the temporary path
`<base>_temp.md` and the target path `<base>.md`.  `none` means the path
has no file. -/
structure FS where
  temp : Option String
  output : Option String
deriving DecidableEq

/-- The sequence of filesystem states produced by the critical section of
`_update_markdown_file` (lines 206-222) when every operation succeeds:
write the temp file; if the target exists, `os.remove` it; then
`os.rename` the temp file onto the target.  Each list element is the
filesystem state after one operation, so a crash can leave the system in
any of these states. -/
def atomicReplaceTrace (fs : FS) (md : String) : List FS :=
  let fs1 : FS := { fs with temp := some md }
  match fs.output with
  | some _ =>
    let fs2 : FS := { fs1 with output := none }
    [fs1, fs2, { temp := none, output := some md }]
  | none =>
    [fs1, { temp := none, output := some md }]

/-- The placeholder-enhancement prologue of `_update_markdown_file`
(lines 182-191). -/
def enhanceContent (st : WorkflowState) (content : String) : String :=
  if (["生成中...", "请稍候"].any fun ph => strContains content ph) ∧ content.length < 200 then
    if st.selected_title ≠ "" then
      "# " ++ st.selected_title ++ "\n\n" ++ "## 关于" ++ st.keyword ++ "\n\n" ++ content
    else content
  else content

/-- `_update_markdown_file(content)` (lines 176-244).  `tempOk` is whether
the temp-file write succeeds, `renameOk` whether the subsequent
remove+rename step succeeds (a rename failure happens after the target
was already removed), `directOk` whether the fallback direct write in the
`except` branch succeeds.  Returns the final filesystem state and whether
an exception propagates to the caller; both `except` branches only log,
so the second component is `false` on every path. -/
def updateMarkdownFile (st : WorkflowState) (tempOk renameOk directOk : Bool)
    (fs : FS) (content : String) : FS × Bool :=
  let md := generateMarkdownPreview st (enhanceContent st content)
  let directFallback : FS → FS × Bool := fun fsE =>
    if directOk then ({ fsE with output := some md }, false) else (fsE, false)
  if tempOk then
    let fs1 : FS := { fs with temp := some md }
    match fs.output with
    | some _ =>
      let fs2 : FS := { fs1 with output := none }
      if renameOk then ({ temp := none, output := some md }, false)
      else directFallback fs2
    | none =>
      if renameOk then ({ temp := none, output := some md }, false)
      else directFallback fs1
  else
    directFallback fs

/-! ### Section generation with bounded retries
(`_write_chapters_with_visualization`, lines 471-588) -/

/-- The per-chapter retry loop of lines 504-518.  `gen att` is the result
of the `att`-th call to `self._write_chapter` (0-based): `none` models an
exception escaping the call, `some s` the returned text.  Arguments after
`minLen` are the remaining loop budget `max_retries + 1 - retry_count`,
the current `retry_count`, and the number of attempts made so far.
Returns `(retry_count, chapter_content, attempts made)`. -/
def chapterRetryGo (gen : Nat → Option String) (minLen : Nat) :
    Nat → Nat → Nat → Nat × Option String × Nat
  | 0, rc, att => (rc, none, att)
  | b + 1, rc, att =>
    match gen att with
    | none => chapterRetryGo gen minLen b (rc + 1) (att + 1)
    | some s =>
      if s = "" ∨ s.length < minLen then chapterRetryGo gen minLen b (rc + 1) (att + 1)
      else (rc, some s, att + 1)

/-- Result of processing one chapter: the final `retry_count`, the
accepted generation result (if any), the number of generator attempts,
and the content actually stored for the chapter. -/
structure ChapterResult where
  retryCount : Nat
  accepted : Option String
  attempts : Nat
  stored : String
deriving DecidableEq

/-- Lines 504-524: run the retry loop (`while retry_count <= max_retries
and not chapter_content`), and on exhaustion substitute the fallback
`f"{chapter.get('description', '本章节描述未提供')}\n\n本章节内容生成失败，请稍后重试。"`. -/
def writeChapterWithRetries (gen : Nat → Option String) (maxRetries minLen : Nat)
    (desc : Option String) : ChapterResult :=
  let r := chapterRetryGo gen minLen (maxRetries + 1) 0 0
  { retryCount := r.1
    accepted := r.2.1
    attempts := r.2.2
    stored :=
      match r.2.1 with
      | some s => s
      | none => chapterDescOr desc ++ "\n\n本章节内容生成失败，请稍后重试。" }

/-- `max_failures = len(self.chapters) // 2` (line 492). -/
def videoMaxFailures (totalSteps : Nat) : Nat := totalSteps / 2

/-- The chapter loop of lines 496-576, without the Manim visualization
step (the environment is taken to report no visualization needs, which
the source skips over; visualization failures are caught and cannot
affect the loop).  `gens i` is the attempt oracle for the chapter with
1-based number `i`.  State: remaining chapters, the 1-based chapter
number, the accumulated `current_content`, and the failure counter.
Returns the final content, the failure counter, and how many chapters
were processed before the loop ended (`break` fires when
`failures >= max_failures`, checked after the section is appended). -/
def writeChaptersGo (gens : Nat → Nat → Option String)
    (maxRetries minLen maxFailures : Nat) :
    List Chapter → Nat → String → Nat → String × Nat × Nat
  | [], _, cc, f => (cc, f, 0)
  | ch :: rest, i, cc, f =>
    let r := writeChapterWithRetries (gens i) maxRetries minLen ch.description
    let f' := if r.accepted.isSome then f else f + 1
    let cc' := cc ++ "\n\n## " ++ toString i ++ ". " ++ ch.title ++ "\n\n" ++ r.stored
    if maxFailures ≤ f' then (cc', f', 1)
    else
      let rec' := writeChaptersGo gens maxRetries minLen maxFailures rest (i + 1) cc' f'
      (rec'.1, rec'.2.1, rec'.2.2 + 1)

/-- The default chapters substituted at lines 478-484 when the parsed
structure has fewer than 3 chapters. -/
def loopDefaultChapters : List Chapter :=
  [⟨"引言", some "介绍主题及其重要性"⟩,
   ⟨"基础概念", some "解释基本术语和概念"⟩,
   ⟨"核心技术原理", some "深入探讨核心技术原理"⟩,
   ⟨"应用场景", some "探讨实际应用案例"⟩,
   ⟨"总结", some "总结主要观点并展望"⟩]

/-- `_write_chapters_with_visualization` (lines 471-588): chapter-count
guard, initial `current_content`, the chapter loop, and the closing
summary section (`summaryText` is the summary produced at lines 579-585,
already accounting for the internal fallback of `_generate_summary`).
Returns the final `current_content` and the failure counter. -/
def writeChaptersWithVisualization (gens : Nat → Nat → Option String)
    (selected_title cc_in : String) (chs0 : List Chapter)
    (summaryText : String) : String × Nat :=
  let chs := if chs0.length < 3 then loopDefaultChapters else chs0
  let cc0 :=
    if cc_in = "" ∨ strContains cc_in "# " = false then "# " ++ selected_title ++ "\n\n"
    else cc_in
  let r := writeChaptersGo gens 2 50 (videoMaxFailures chs.length) chs 1 cc0 0
  (r.1 ++ "\n\n## 总结\n\n" ++ summaryText, r.2.1)

/-! ### Manim code-reference insertion (lines 550-556) -/

/-- The code-reference text built at line 555. -/
def buildCodeReference (desc code : String) : String :=
  "\n\n```python\n# Manim代码：" ++ desc ++ "\n" ++ code ++ "\n```\n\n"

/-- Lines 553-556: `insertion_point = current_content.find(anchor) +
len(anchor)`; if `insertion_point > 0` splice the reference there,
otherwise leave the content unchanged.  Note `str.find` returns `-1`
when the anchor is absent, so `insertion_point = len(anchor) - 1` then. -/
def insertCodeReference (current_content anchor codeReference : String) : String :=
  let insertion_point : Int := strFind current_content anchor + (anchor.length : Int)
  if 0 < insertion_point then
    ⟨current_content.data.take insertion_point.toNat ++ codeReference.data ++
      current_content.data.drop insertion_point.toNat⟩
  else current_content

/-! ### Top-level `generate_script` (lines 52-128) -/

/-- A value of the result dictionary returned by `generate_script`. -/
inductive DVal where
  | s (v : String)
  | ls (vs : List String)
  | blocks (bs : List (String × String))
deriving DecidableEq

/-- `_assemble_final_output` (lines 878-890): `enhanced_script` is the
local variable `enhanced_script = self.current_content`, so both script
entries carry the same string. -/
def assembleFinalOutput (kw aud : String) (suggested : List String)
    (cc : String) (blocks : List (String × String)) : List (String × DVal) :=
  [("keyword", DVal.s kw),
   ("audience_level", DVal.s aud),
   ("suggested_titles", DVal.ls suggested),
   ("script", DVal.s cc),
   ("enhanced_script", DVal.s cc),
   ("manim_code_blocks", DVal.blocks blocks)]

/-- The five default title suggestions of lines 350-356. -/
def defaultTitles (kw : String) : List String :=
  ["深入理解" ++ kw ++ "：原理、技术与应用",
   kw ++ "技术完全指南",
   kw ++ "：从入门到精通",
   "探索" ++ kw ++ "的奥秘",
   kw ++ "实战指南：理论与实践"]

/-- `_generate_titles` (lines 309-371), returning the resulting
`(suggested_titles, selected_title)`.  `llmTitles` is the title list
extracted from the writer's answer; `none` models an exception inside the
phase, which the phase catches itself, falling back to the fixed selected
title and leaving `suggested_titles` empty. -/
def generateTitles (kw : String) (llmTitles : Option (List String)) :
    List String × String :=
  match llmTitles with
  | some ts =>
    let suggested := if ts.isEmpty then defaultTitles kw else ts
    (suggested, suggested.headD "")
  | none => ([], "深入理解" ++ kw ++ "：原理、技术与应用")

/-- The six default chapters of lines 417-424 used by
`_generate_chapter_structure` when its LLM call raises. -/
def structureDefaultChapters : List Chapter :=
  [⟨"引言", some "介绍主题及其重要性"⟩,
   ⟨"基础概念", some "解释基本术语和概念"⟩,
   ⟨"核心技术", some "深入探讨核心技术原理"⟩,
   ⟨"应用场景", some "探讨实际应用案例"⟩,
   ⟨"未来发展", some "讨论技术发展趋势"⟩,
   ⟨"总结", some "总结要点并提供进一步学习资源"⟩]

/-- `_generate_chapter_structure` outcome: parsed chapters, or the
defaults when the phase's LLM call raises (caught internally). -/
def chapterStructureOr : Option (List Chapter) → List Chapter
  | some chs => chs
  | none => structureDefaultChapters

/-- The summary produced at lines 579-585: generated text, or the fixed
fallback sentence when the summary step raises. -/
def summaryOr (kw : String) : Option String → String
  | some s => s
  | none => "本视频介绍了关于" ++ kw ++ "的核心概念和应用。希望这些内容对您有所帮助，感谢观看！"

/-- Where (if anywhere) an uncaught exception interrupts the `try` block
of `generate_script`.  The phases catch ordinary `Exception`s themselves,
but e.g. an asynchronous cancellation can still escape any of them. -/
inductive RaisePoint where
  | noRaise
  | titles
  | structPhase
  | chapters
deriving DecidableEq

/-- The external environment of one `generate_script` run. `setupOk` is
whether `_setup_output_files` (line 67, called OUTSIDE the `try` block)
completes — its own `except` fallback re-runs `mkdir` unprotected, so a
second failure there propagates out of `generate_script`. -/
structure GenEnv where
  setupOk : Bool
  raisePoint : RaisePoint
  titlesLLM : Option (List String)
  structLLM : Option (List Chapter)
  chapterGens : Nat → Nat → Option String
  summaryLLM : Option String
  partialCC : String
  errText : String

/-- The `except Exception` handler of `generate_script` (lines 108-128):
rebuild minimum content when the accumulated content is missing or short
(writing the `.error` sentinel in exactly that case), then return the
fallback result dictionary.  Returns the dictionary and the sentinel
suffix written (`none` when no sentinel is written at all, which is what
the code does for a long `current_content`). -/
def generateScriptErrorPath (kw aud : String) (suggested : List String)
    (selected : String) (chs : List Chapter) (cc e : String) :
    List (String × DVal) × Option String :=
  let needsMin := cc = "" ∨ cc.length < 500
  let st : WorkflowState :=
    ⟨kw, aud, suggested, selected, chs, cc, []⟩
  let cc' := if needsMin then ensureMinimumContent st else cc
  let marker := if needsMin then some (markStatus true) else none
  let script := pyOr cc' ("脚本生成过程中出错: " ++ e ++ "，请重试。")
  ([("keyword", DVal.s kw),
    ("audience_level", DVal.s aud),
    ("suggested_titles", DVal.ls (pyOrL suggested
      ["理解" ++ kw ++ "技术", kw ++ "入门与进阶"])),
    ("script", DVal.s script),
    ("enhanced_script", DVal.s script),
    ("manim_code_blocks", DVal.blocks [])], marker)

/-- Result of one `generate_script` call: either a propagated exception
(`Except.error`) or the returned dictionary, plus the sentinel suffix of
the `<output>.<status>` marker file written during the run. -/
structure GenerateScriptResult where
  outcome : Except Unit (List (String × DVal))
  marker : Option String

/-- `generate_script(keyword, audience_level)` (lines 52-128).  The happy
path runs titles → structure → chapters and always finalizes with
`_mark_generation_completed()` (line 102), i.e. the `completed` sentinel —
also when the chapter loop stopped early at the failure threshold.  Note
the returned dictionary is assembled (line 93) BEFORE the
minimum-content re-check of lines 96-98, so it is unaffected by it. -/
def generateScript (kw aud : String) (env : GenEnv) : GenerateScriptResult :=
  if env.setupOk then
    match env.raisePoint with
    | RaisePoint.titles =>
      let r := generateScriptErrorPath kw aud [] "" [] "" env.errText
      ⟨Except.ok r.1, r.2⟩
    | RaisePoint.structPhase =>
      let ts := generateTitles kw env.titlesLLM
      let r := generateScriptErrorPath kw aud ts.1 ts.2 [] "" env.errText
      ⟨Except.ok r.1, r.2⟩
    | RaisePoint.chapters =>
      let ts := generateTitles kw env.titlesLLM
      let chs := chapterStructureOr env.structLLM
      let r := generateScriptErrorPath kw aud ts.1 ts.2 chs env.partialCC env.errText
      ⟨Except.ok r.1, r.2⟩
    | RaisePoint.noRaise =>
      let ts := generateTitles kw env.titlesLLM
      let chs := chapterStructureOr env.structLLM
      let w := writeChaptersWithVisualization env.chapterGens ts.2 ""
        chs (summaryOr kw env.summaryLLM)
      ⟨Except.ok (assembleFinalOutput kw aud ts.1 w.1 []),
       some (markStatus false)⟩
  else
    ⟨Except.error (), none⟩

/-! ### Article writer agent (`app/rss_writer/agents/article_writer.py`) -/

/-- The mutable fields of `ArticleWriterAgent` relevant to per-run state:
the pydantic fields plus the two stall-detection attributes created
lazily in `think` (`_last_step_index`, `_same_step_count`); `none` models
a not-yet-created attribute (`hasattr` false). -/
structure AgentState where
  collected_info : List (String × String)
  headline_article : List (String × String)
  article_sources : List (String × String)
  article_title : String
  article_intro : String
  article_sections : List (Nat × String)
  article_conclusion : String
  writing_stage : String
  lastStepIndex : Option Nat
  sameStepCount : Option Nat
deriving DecidableEq

/-- The state reset performed at the start of `run` (lines 86-101): the
article-composition fields are cleared; `collected_info` is only ever
EXTENDED (when empty and a request is given), and the stall-detection
attributes are not touched at all. -/
def runReset (a : AgentState) (request : Option String) : AgentState :=
  let a1 := { a with
    headline_article := []
    article_sources := []
    article_sections := []
    article_title := ""
    article_intro := ""
    article_conclusion := ""
    writing_stage := "planning" }
  match request with
  | some r =>
    if a1.collected_info.isEmpty then
      { a1 with collected_info := [("initial_request", r)] }
    else a1
  | none => a1

/-- The stall-detection attributes read and written by `think`
(lines 504-545). -/
structure StallState where
  lastStepIndex : Option Nat
  sameStepCount : Option Nat
deriving DecidableEq

/-- One poll of the stall detector (lines 506-545) at observed active
step `cur` (the block only runs when the index is not `None`):
if `_last_step_index` exists and equals `cur`, `_same_step_count` is
incremented (created at 1); nothing resets it when the index CHANGES —
the counter simply carries over.  A stall is reported (forced advance)
once the counter reaches 3, after which the code sets it back to 0.
Returns the updated state and whether a stall was reported. -/
def observeStep (s : StallState) (cur : Nat) : StallState × Bool :=
  match s.lastStepIndex with
  | some l =>
    if l = cur then
      let c := match s.sameStepCount with
        | some c0 => c0 + 1
        | none => 1
      if 3 ≤ c then (⟨some cur, some 0⟩, true)
      else (⟨some cur, some c⟩, false)
    else (⟨some cur, s.sameStepCount⟩, false)
  | none => (⟨some cur, s.sameStepCount⟩, false)

/-- Fold `observeStep` over a sequence of observed active-step indices,
recording for each poll whether a stall was reported. -/
def observeTrace (s : StallState) : List Nat → List Bool
  | [] => []
  | c :: cs =>
    let r := observeStep s c
    r.2 :: observeTrace r.1 cs

/-- The guarded section store of `act` (lines 690-696): a section is
stored only when its index is not already present, so a repeated call is
a no-op.  The dict `self.article_sections` is an insertion-ordered
association list. -/
def appendSection (secs : List (Nat × String)) (i : Nat) (t : String) :
    List (Nat × String) :=
  if secs.any fun p => p.1 == i then secs else secs ++ [(i, t)]

/-- Apply a whole run's worth of `appendSection` calls, starting from the
empty dict that `run` begins with. -/
def applyAppends (ops : List (Nat × String)) : List (Nat × String) :=
  ops.foldl (fun acc op => appendSection acc op.1 op.2) []

/-- Insert one entry into a key-sorted association list (helper for
Python's `sorted(dict.items())`; keys are unique in a dict, so sorting by
key alone is exact). -/
def insertByKey (p : Nat × String) : List (Nat × String) → List (Nat × String)
  | [] => [p]
  | q :: t => if p.1 ≤ q.1 then p :: q :: t else q :: insertByKey p t

/-- `sorted(self.article_sections.items())` (line 160). -/
def sortByKey : List (Nat × String) → List (Nat × String)
  | [] => []
  | p :: t => insertByKey p (sortByKey t)

/-- `_assemble_final_article` (lines 147-176): title, intro, the
sections in ascending step-index order, the source list, and the
conclusion, joined by blank lines, empty parts skipped. -/
def assembleFinalArticle (title intro conclusion : String)
    (secs : List (Nat × String)) (sources : List (String × String)) : String :=
  let parts :=
    (if title ≠ "" then ["# " ++ title ++ "\n"] else []) ++
    (if intro ≠ "" then [intro] else []) ++
    (sortByKey secs).map Prod.snd ++
    (if sources ≠ [] then
      ["## 文章来源",
       String.intercalate "\n" ((enumFrom 1 sources).map fun p =>
         toString p.1 ++ ". [" ++ p.2.1 ++ "](" ++ p.2.2 ++ ")")]
     else []) ++
    (if conclusion ≠ "" then [conclusion] else [])
  String.intercalate "\n\n" parts

/-! ### Claim C1 — snapshot atomicity -/

/-- Claim C1 is FALSE on the code: starting from a filesystem whose
target path already holds the previous snapshot, the write sequence of
`_update_markdown_file` passes through a state in which the target path
has no file — the target is `os.remove`d (line 220) before the
`os.rename` (line 222), it is not replaced by a single atomic rename. -/
theorem snapshot_window_without_target_file :
    (⟨none, some "old"⟩ : FS).output ≠ none ∧
    ∃ s ∈ atomicReplaceTrace ⟨none, some "old"⟩ "new", s.output = none := by
  decide

/-- Claim C1 (amended): for every snapshot after the first, the rendered
text is written to a temporary path, then the existing target file is
DELETED, and only then is the temporary file renamed onto the target; so
between the delete and the rename there is a moment in which the target
output path has no file, and a crash there leaves neither the previous
snapshot nor the new one — only the final state holds the new snapshot. -/
theorem snapshot_delete_then_rename (fs : FS) (md old : String)
    (h : fs.output = some old) :
    atomicReplaceTrace fs md =
      [{ fs with temp := some md },
       { temp := some md, output := none },
       { temp := none, output := some md }] := by
  cases fs with
  | mk temp output =>
    dsimp at h
    subst h
    rfl

theorem snapshot_delete_then_rename_witness :
    atomicReplaceTrace ⟨none, some "old"⟩ "new" =
      [{ temp := some "new", output := some "old" },
       { temp := some "new", output := none },
       { temp := none, output := some "new" }] :=
  snapshot_delete_then_rename ⟨none, some "old"⟩ "new" "old" rfl

/-! ### Claim C4 — stall-detection counter -/

/-- Claim C4 is violated by the code (and the code contradicts its own
log message `连续{n}次停留在步骤{idx}`): `think` never resets
`_same_step_count` when the observed index changes — it only reassigns
`_last_step_index` — so the counter carries over across an index change.
Evaluating the embedded detector: over the poll sequence `[6,6,6,7,7]` a
stall is reported at the fifth poll although index 7 was observed only
twice in a row, while a fresh detector reports nothing on `[7,7]`. -/
theorem stall_counter_carries_across_index_change :
    observeTrace ⟨none, none⟩ [6, 6, 6, 7, 7] = [false, false, false, false, true] ∧
    observeTrace ⟨none, none⟩ [7, 7] = [false, false] := by
  decide

/-! ### Claim C7 — finalization placeholder re-validation -/

/-- The workflow state used to evaluate Claim C7: one parsed chapter,
a selected title, no Manim blocks. -/
def c7State : WorkflowState :=
  { keyword := "K", audience_level := "beginner", suggested_titles := [],
    selected_title := "T", chapters := [⟨"基础概念", some "解释基本术语"⟩],
    current_content := "", manim_code_blocks := [] }

set_option maxRecDepth 8000 in
/-- Claim C7 is contradicted by the code (which also contradicts its own
comment `确保脚本文件没有"生成中"或"请稍候"等占位符`):
`_mark_generation_completed` does detect the placeholder and replaces the
file with `_generate_markdown_preview(_ensure_minimum_content())`, but
whenever `self.chapters` is non-empty `_ensure_minimum_content` itself
emits the line `本章节内容生成中...` (line 916), which contains the
placeholders `内容生成中` and `生成中...` — so the finalized file still
contains "in progress" placeholder text. -/
theorem finalize_substitution_still_contains_placeholder :
    (markGenerationCompleted c7State false "x内容生成中y").2 ≠ "x内容生成中y" ∧
    (markGenerationCompleted c7State false "x内容生成中y").1 = markStatus false ∧
    containsAnyPlaceholder (markGenerationCompleted c7State false "x内容生成中y").2 = true ∧
    strContains (ensureMinimumContent c7State) "本章节内容生成中..." = true := by
  decide

/-! ### Claim C8 — persistence failure semantics -/

/-- State used for Claim C8's evaluation. -/
def c8State : WorkflowState :=
  { keyword := "K", audience_level := "beginner", suggested_titles := [],
    selected_title := "T", chapters := [], current_content := "",
    manim_code_blocks := [] }

/-- Claim C8 is FALSE on the code: when the temp-file write fails AND the
fallback direct write also fails, `_update_markdown_file` merely logs
(lines 243-244) and returns — no exception reaches `generate_script`, so
the run does NOT end in the `Failed` terminal state; the target file
keeps whatever was last successfully persisted and the pipeline simply
continues. -/
theorem direct_write_failure_not_fatal :
    (updateMarkdownFile c8State false true false ⟨none, some "prev"⟩ "c").2 = false ∧
    (updateMarkdownFile c8State false true false ⟨none, some "prev"⟩ "c").1 =
      ⟨none, some "prev"⟩ := by
  decide

/-- Claim C8 (amended): a failing temp write degrades to a direct write
of the rendered text to the target path; a failure of the direct write
too is swallowed (only logged), so no persistence failure is ever fatal:
the call never raises, and with both writes failing the filesystem keeps
whatever was last successfully persisted while the run continues. -/
theorem persistence_degrades_and_never_raises
    (st : WorkflowState) (tempOk renameOk directOk : Bool) (fs : FS)
    (content : String) :
    (updateMarkdownFile st tempOk renameOk directOk fs content).2 = false ∧
    (tempOk = false → directOk = true →
      (updateMarkdownFile st tempOk renameOk directOk fs content).1.output =
        some (generateMarkdownPreview st (enhanceContent st content))) ∧
    (tempOk = false → directOk = false →
      (updateMarkdownFile st tempOk renameOk directOk fs content).1 = fs) := by
  cases tempOk <;> cases renameOk <;> cases directOk <;>
    rcases fs with ⟨t, (_ | o)⟩ <;>
      simp [updateMarkdownFile]

theorem persistence_degrades_and_never_raises_witness :
    (updateMarkdownFile c8State false true true ⟨none, none⟩ "c").1.output =
      some (generateMarkdownPreview c8State (enhanceContent c8State "c")) :=
  (persistence_degrades_and_never_raises c8State false true true ⟨none, none⟩ "c").2.1
    rfl rfl

/-! ### Claim C9 — per-run state isolation -/

/-- An `ArticleWriterAgent` as left behind by an earlier run: collected
information present, stall-detection attributes set. -/
def dirtyAgent : AgentState :=
  { collected_info := [("a", "b")], headline_article := [],
    article_sources := [], article_title := "t", article_intro := "i",
    article_sections := [(0, "s")], article_conclusion := "c",
    writing_stage := "review", lastStepIndex := some 3, sameStepCount := some 2 }

/-- Claim C9 is FALSE on the code: the reset at the start of `run`
(lines 86-93) clears only the article-composition fields.  Neither
`collected_info` nor the stall-detection attributes `_last_step_index` /
`_same_step_count` are re-initialized, so a second run on the same
instance inherits them — and its observable behavior differs from a
fresh agent's: with the carried-over counter, polls `[3,3]` report a
stall immediately, while a fresh agent reports none. -/
theorem run_state_not_fully_reset :
    (runReset dirtyAgent (some "req")).sameStepCount = some 2 ∧
    (runReset dirtyAgent (some "req")).lastStepIndex = some 3 ∧
    (runReset dirtyAgent (some "req")).collected_info = [("a", "b")] ∧
    observeTrace ⟨(runReset dirtyAgent (some "req")).lastStepIndex,
                  (runReset dirtyAgent (some "req")).sameStepCount⟩ [3, 3] ≠
      observeTrace ⟨none, none⟩ [3, 3] := by
  decide

/-- Claim C9 (amended): at the start of every run the agent re-creates
only the article-composition state (headline, sources, sections, title,
intro, conclusion, writing stage); the accumulated collected information
is preserved whenever non-empty, and the stall-detection state (last
observed step index and repeat counter) is carried over unchanged, so
runs on the same instance share this mutable state. -/
theorem run_reset_scope (a : AgentState) (req : Option String) :
    (runReset a req).headline_article = [] ∧
    (runReset a req).article_sources = [] ∧
    (runReset a req).article_sections = [] ∧
    (runReset a req).article_title = "" ∧
    (runReset a req).article_intro = "" ∧
    (runReset a req).article_conclusion = "" ∧
    (runReset a req).writing_stage = "planning" ∧
    (runReset a req).lastStepIndex = a.lastStepIndex ∧
    (runReset a req).sameStepCount = a.sameStepCount ∧
    (a.collected_info ≠ [] → (runReset a req).collected_info = a.collected_info) := by
  rcases a with ⟨ci, ha, asrc, t, i, s, c, w, l, n⟩
  rcases req with _ | r
  · simp [runReset]
  · by_cases hci : ci = []
    · subst hci
      simp [runReset]
    · simp [runReset, List.isEmpty_iff, hci]

theorem run_reset_scope_witness :
    (runReset dirtyAgent (some "req")).collected_info = dirtyAgent.collected_info :=
  (run_reset_scope dirtyAgent (some "req")).2.2.2.2.2.2.2.2.2 (by decide)

/-! ### Claim C3 — retry bound and fallback content -/

theorem chapterRetryGo_attempts (gen : Nat → Option String) (minLen : Nat) :
    ∀ (b rc att : Nat), (chapterRetryGo gen minLen b rc att).2.2 ≤ att + b := by
  intro b
  induction b with
  | zero => intro rc att; simp [chapterRetryGo]
  | succ b ih =>
    intro rc att
    rcases hg : gen att with _ | s
    · simp only [chapterRetryGo, hg]
      have := ih (rc + 1) (att + 1)
      omega
    · simp only [chapterRetryGo, hg]
      by_cases hs : s = "" ∨ s.length < minLen
      · rw [if_pos hs]
        have := ih (rc + 1) (att + 1)
        omega
      · rw [if_neg hs]
        dsimp only
        omega

theorem chapterRetryGo_accepted (gen : Nat → Option String) (minLen : Nat) :
    ∀ (b rc att : Nat) (s : String),
      (chapterRetryGo gen minLen b rc att).2.1 = some s →
      s ≠ "" ∧ minLen ≤ s.length := by
  intro b
  induction b with
  | zero => intro rc att s h; simp [chapterRetryGo] at h
  | succ b ih =>
    intro rc att s h
    rcases hg : gen att with _ | s'
    · simp only [chapterRetryGo, hg] at h
      exact ih _ _ _ h
    · simp only [chapterRetryGo, hg] at h
      by_cases hs : s' = "" ∨ s'.length < minLen
      · rw [if_pos hs] at h
        exact ih _ _ _ h
      · rw [if_neg hs] at h
        simp only at h
        push_neg at hs
        cases h
        exact ⟨hs.1, by omega⟩

/-- Claim C3 (confirmed): for every step, the retry loop of
`_write_chapters_with_visualization` (lines 504-524) calls the generator
at most `1 + maxRetries = 3` times; a result is accepted only when it is
truthy (non-`None`, non-empty) and at least the 50-character threshold
long ("shorter results are treated as failures and retried"); after
exhausting all attempts the stored content is the fallback placeholder
built from the step's description plus the failed-generation marker, and
the stored content is never empty. -/
theorem section_generator_retry_bound (gen : Nat → Option String) (desc : Option String) :
    (writeChapterWithRetries gen 2 50 desc).attempts ≤ 1 + 2 ∧
    (∀ s, (writeChapterWithRetries gen 2 50 desc).accepted = some s →
      s ≠ "" ∧ 50 ≤ s.length) ∧
    ((writeChapterWithRetries gen 2 50 desc).accepted = none →
      (writeChapterWithRetries gen 2 50 desc).stored =
        chapterDescOr desc ++ "\n\n本章节内容生成失败，请稍后重试。") ∧
    (writeChapterWithRetries gen 2 50 desc).stored ≠ "" := by
  have hacc : (writeChapterWithRetries gen 2 50 desc).accepted =
      (chapterRetryGo gen 50 3 0 0).2.1 := rfl
  have hatt : (writeChapterWithRetries gen 2 50 desc).attempts =
      (chapterRetryGo gen 50 3 0 0).2.2 := rfl
  have hst : (writeChapterWithRetries gen 2 50 desc).stored =
      (match (chapterRetryGo gen 50 3 0 0).2.1 with
       | some s => s
       | none => chapterDescOr desc ++ "\n\n本章节内容生成失败，请稍后重试。") := rfl
  refine ⟨?_, ?_, ?_, ?_⟩
  · rw [hatt]
    have := chapterRetryGo_attempts gen 50 3 0 0
    omega
  · intro s hs
    rw [hacc] at hs
    exact chapterRetryGo_accepted gen 50 3 0 0 s hs
  · intro hnone
    rw [hacc] at hnone
    rw [hst]
    simp only [hnone]
  · rw [hst]
    rcases hacc2 : (chapterRetryGo gen 50 3 0 0).2.1 with _ | s
    · simp only [hacc2]
      exact str_append_ne_right _ _ (by decide)
    · simp only [hacc2]
      exact (chapterRetryGo_accepted gen 50 3 0 0 s hacc2).1

theorem section_generator_retry_bound_witness :
    (writeChapterWithRetries (fun _ => none) 2 50 none).attempts ≤ 1 + 2 ∧
    (∀ s, (writeChapterWithRetries (fun _ => none) 2 50 none).accepted = some s →
      s ≠ "" ∧ 50 ≤ s.length) ∧
    ((writeChapterWithRetries (fun _ => none) 2 50 none).accepted = none →
      (writeChapterWithRetries (fun _ => none) 2 50 none).stored =
        chapterDescOr none ++ "\n\n本章节内容生成失败，请稍后重试。") ∧
    (writeChapterWithRetries (fun _ => none) 2 50 none).stored ≠ "" :=
  section_generator_retry_bound (fun _ => none) none

/-! ### Claim C5 — section ordering and idempotent append -/

theorem insertByKey_perm (p : Nat × String) :
    ∀ l : List (Nat × String), (insertByKey p l).Perm (p :: l) := by
  intro l
  induction l with
  | nil => simp [insertByKey]
  | cons q t ih =>
    simp only [insertByKey]
    by_cases h : p.1 ≤ q.1
    · rw [if_pos h]
    · rw [if_neg h]
      exact (ih.cons q).trans (List.Perm.swap p q t)

theorem sortByKey_perm : ∀ l : List (Nat × String), (sortByKey l).Perm l := by
  intro l
  induction l with
  | nil => simp [sortByKey]
  | cons p t ih =>
    simp only [sortByKey]
    exact (insertByKey_perm p (sortByKey t)).trans (ih.cons p)

theorem insertByKey_pairwise (p : Nat × String) :
    ∀ l : List (Nat × String),
      List.Pairwise (fun a b => a.1 ≤ b.1) l →
      List.Pairwise (fun a b => a.1 ≤ b.1) (insertByKey p l) := by
  intro l
  induction l with
  | nil => intro _; simp [insertByKey]
  | cons q t ih =>
    intro hp
    rcases List.pairwise_cons.mp hp with ⟨hq, ht⟩
    simp only [insertByKey]
    by_cases h : p.1 ≤ q.1
    · rw [if_pos h]
      refine List.pairwise_cons.mpr ⟨?_, hp⟩
      intro x hx
      rcases List.mem_cons.mp hx with rfl | hx'
      · exact h
      · exact le_trans h (hq x hx')
    · rw [if_neg h]
      refine List.pairwise_cons.mpr ⟨?_, ih ht⟩
      intro x hx
      rcases List.mem_cons.mp ((insertByKey_perm p t).mem_iff.mp hx) with rfl | hx'
      · exact le_of_not_le h
      · exact hq x hx'

theorem sortByKey_pairwise : ∀ l : List (Nat × String),
    List.Pairwise (fun a b => a.1 ≤ b.1) (sortByKey l) := by
  intro l
  induction l with
  | nil => simp [sortByKey]
  | cons p t ih =>
    simpa [sortByKey] using insertByKey_pairwise p (sortByKey t) ih

theorem appendSection_keys_nodup (secs : List (Nat × String)) (i : Nat) (t : String)
    (h : (secs.map Prod.fst).Nodup) :
    ((appendSection secs i t).map Prod.fst).Nodup := by
  simp only [appendSection]
  by_cases ha : (secs.any fun p => p.1 == i) = true
  · rw [if_pos ha]
    exact h
  · rw [if_neg ha]
    have hni : i ∉ secs.map Prod.fst := by
      intro hmem
      rcases List.mem_map.mp hmem with ⟨x, hx, hxi⟩
      exact ha (List.any_eq_true.mpr ⟨x, hx, by simpa [beq_iff_eq] using hxi⟩)
    simp [List.nodup_append, h, hni]

theorem applyAppends_keys_nodup_go :
    ∀ (ops acc : List (Nat × String)), (acc.map Prod.fst).Nodup →
      ((ops.foldl (fun acc op => appendSection acc op.1 op.2) acc).map Prod.fst).Nodup := by
  intro ops
  induction ops with
  | nil => intro acc h; simpa using h
  | cons op t ih =>
    intro acc h
    simp only [List.foldl_cons]
    exact ih _ (appendSection_keys_nodup acc op.1 op.2 h)

theorem applyAppends_keys_nodup (ops : List (Nat × String)) :
    ((applyAppends ops).map Prod.fst).Nodup :=
  applyAppends_keys_nodup_go ops [] (by simp)

theorem pairwise_lt_of_le_of_nodup :
    ∀ l : List Nat, List.Pairwise (· ≤ ·) l → l.Nodup → List.Pairwise (· < ·) l := by
  intro l
  induction l with
  | nil => intro _ _; exact List.Pairwise.nil
  | cons a t ih =>
    intro h1 h2
    rcases List.pairwise_cons.mp h1 with ⟨ha, ht⟩
    rcases List.nodup_cons.mp h2 with ⟨hna, htd⟩
    refine List.pairwise_cons.mpr ⟨fun b hb => lt_of_le_of_ne (ha b hb) ?_, ih ht htd⟩
    rintro rfl
    exact hna hb

/-- Claim C5 (confirmed): however the sections dict is filled by `act`
(any sequence of `appendSection` calls starting from the empty per-run
dict), the sorted section list rendered by `_assemble_final_article`
(`sorted(self.article_sections.items())`, line 160) has strictly
ascending step indices with no duplicates; and appending a section for an
index already present is a no-op that leaves the stored sections —
including the previously stored text — unchanged (lines 690-696). -/
theorem artifact_sections_sorted_nodup :
    (∀ ops : List (Nat × String),
      List.Pairwise (· < ·) ((sortByKey (applyAppends ops)).map Prod.fst) ∧
      ((sortByKey (applyAppends ops)).map Prod.fst).Nodup) ∧
    (∀ (secs : List (Nat × String)) (i : Nat) (t : String),
      (secs.any fun p => p.1 == i) = true → appendSection secs i t = secs) := by
  constructor
  · intro ops
    have hnd : ((applyAppends ops).map Prod.fst).Nodup := applyAppends_keys_nodup ops
    have hperm : ((sortByKey (applyAppends ops)).map Prod.fst).Perm
        ((applyAppends ops).map Prod.fst) := (sortByKey_perm _).map _
    have hnd' : ((sortByKey (applyAppends ops)).map Prod.fst).Nodup :=
      hperm.nodup_iff.mpr hnd
    have hle : List.Pairwise (· ≤ ·) ((sortByKey (applyAppends ops)).map Prod.fst) :=
      List.pairwise_map.mpr (sortByKey_pairwise _)
    exact ⟨pairwise_lt_of_le_of_nodup _ hle hnd', hnd'⟩
  · intro secs i t h
    simp only [appendSection]
    rw [if_pos h]

theorem artifact_sections_sorted_nodup_witness :
    appendSection [(0, "x")] 0 "y" = [(0, "x")] :=
  artifact_sections_sorted_nodup.2 [(0, "x")] 0 "y" (by decide)

/-! ### Claim C6 — sub-artifact anchor insertion -/

/-- Claim C6 is FALSE on the code in the anchor-not-found case: with
`str.find` returning `-1`, `insertion_point = len(anchor) - 1 > 0`
(line 553), so the generated body is spliced in at the unrelated
position `len(anchor) - 1` near the start of the accumulated content —
it is NOT appended at the end of the section.  Here the absent 3-char
anchor `"xyz"` makes the body land at offset 2 of `"hello world"`. -/
theorem anchor_missing_inserted_at_unrelated_position :
    strContains "hello world" "xyz" = false ∧
    insertCodeReference "hello world" "xyz" "[B]" = "he[B]llo world" ∧
    insertCodeReference "hello world" "xyz" "[B]" ≠ "hello world" ++ "[B]" := by
  decide

/-- Claim C6 (amended): when the anchor text occurs in the accumulated
content, the generated body is inserted immediately after the FIRST
occurrence of the anchor (`listIndexOf` is first-match, see
`listIndexOf_first`); when it does not occur, the body is spliced in at
offset `len(anchor) - 1` whenever that offset is positive, and for
anchors of length ≤ 1 the sub-artifact is dropped (content unchanged) —
it is never appended at the end. -/
theorem code_reference_insertion_shape :
    (∀ (content anchor body : String) (i : Nat),
      listIndexOf anchor.data content.data = some i →
      0 < i + anchor.length →
      (insertCodeReference content anchor body).data =
        content.data.take (i + anchor.length) ++ body.data ++
          content.data.drop (i + anchor.length)) ∧
    (∀ content anchor body : String,
      listIndexOf anchor.data content.data = none →
      1 < anchor.length →
      (insertCodeReference content anchor body).data =
        content.data.take (anchor.length - 1) ++ body.data ++
          content.data.drop (anchor.length - 1)) ∧
    (∀ content anchor body : String,
      listIndexOf anchor.data content.data = none →
      anchor.length ≤ 1 →
      insertCodeReference content anchor body = content) := by
  refine ⟨?_, ?_, ?_⟩
  · intro content anchor body i h hpos
    simp only [insertCodeReference, strFind, h]
    have hpos' : (0 : Int) < (i : Int) + (anchor.length : Int) := by
      omega
    rw [if_pos hpos']
    have ht : ((i : Int) + (anchor.length : Int)).toNat = i + anchor.length := by
      omega
    rw [ht]
  · intro content anchor body h hlen
    simp only [insertCodeReference, strFind, h]
    have hpos' : (0 : Int) < -1 + (anchor.length : Int) := by
      omega
    rw [if_pos hpos']
    have ht : ((-1 : Int) + (anchor.length : Int)).toNat = anchor.length - 1 := by
      omega
    rw [ht]
  · intro content anchor body h hlen
    simp only [insertCodeReference, strFind, h]
    have hneg : ¬ (0 : Int) < -1 + (anchor.length : Int) := by
      omega
    rw [if_neg hneg]

theorem code_reference_insertion_shape_witness :
    (insertCodeReference "hello world" "lo w" "[B]").data =
      "hello world".data.take (3 + "lo w".length) ++ "[B]".data ++
        "hello world".data.drop (3 + "lo w".length) :=
  code_reference_insertion_shape.1 "hello world" "lo w" "[B]" 3 (by decide) (by decide)

/-! ### Claim C2 — failure threshold and terminal marker -/

/-- The six-step plan of Claim C2's scenario. -/
def c2Chapters : List Chapter :=
  [⟨"C1", some "d1"⟩, ⟨"C2", some "d2"⟩, ⟨"C3", some "d3"⟩,
   ⟨"C4", some "d4"⟩, ⟨"C5", some "d5"⟩, ⟨"C6", some "d6"⟩]

/-- A 50-character generation result (meets the acceptance threshold). -/
def okText : String := "xxxxxxxxxxxxxxxxxxxxxxxxxxxxxxxxxxxxxxxxxxxxxxxxxx"

/-- Attempt oracle of the scenario: chapters 3, 4, 5 (1-based; 0-based
steps 2, 3, 4) persistently fail on every attempt, all others succeed. -/
def c2Gens : Nat → Nat → Option String := fun i _ =>
  if i = 3 ∨ i = 4 ∨ i = 5 then none else some okText

/-- The `generate_script` environment of Claim C2's scenario: setup and
every phase complete, the plan parses to the six chapters above. -/
def c2Env : GenEnv :=
  { setupOk := true, raisePoint := RaisePoint.noRaise,
    titlesLLM := some ["T"], structLLM := some c2Chapters,
    chapterGens := c2Gens, summaryLLM := some "S",
    partialCC := "", errText := "" }

set_option maxRecDepth 10000 in
/-- Claim C2 is FALSE on the code in two places.  (1) The generation stop
itself works as described — in the 6-step scenario with steps 2, 3, 4
(0-based) persistently failing, the loop breaks after the fifth chapter
(`## 5.` present, `## 6.` absent) with the failure counter at the
threshold 3 — but hitting the threshold only `break`s the loop
(line 535): `generate_script` then proceeds on its SUCCESS path and
finalizes with `_mark_generation_completed()` = the `<output>.completed`
sentinel, not `<output>.error`.  (2) The default threshold is
`len(chapters) // 2` (floor, line 492), not `ceil(totalSteps/2)`:
for 7 steps the code uses 3, while `ceil(7/2) = 4`. -/
theorem failure_threshold_finalizes_completed :
    (writeChaptersWithVisualization c2Gens "T" "" c2Chapters "S").2 = 3 ∧
    videoMaxFailures c2Chapters.length = 3 ∧
    strContains (writeChaptersWithVisualization c2Gens "T" "" c2Chapters "S").1
      "## 5. " = true ∧
    strContains (writeChaptersWithVisualization c2Gens "T" "" c2Chapters "S").1
      "## 6. " = false ∧
    (generateScript "K" "beginner" c2Env).marker = some (markStatus false) ∧
    (generateScript "K" "beginner" c2Env).marker ≠ some (markStatus true) ∧
    videoMaxFailures 7 ≠ (7 + 1) / 2 := by
  decide

set_option maxRecDepth 10000 in
/-- Claim C2 (amended): in the 6-step scenario with steps 2, 3, 4
persistently failing, generation stops after step 4 (0-based): sections
`## 1.` through `## 5.` are present (steps 0 and 1 with their generated
text, the failed steps with fallback placeholders), section `## 6.` is
never generated, and the failure counter equals the threshold
`6 // 2 = 3`; the run then finalizes with the `completed` sentinel —
every run of `generate_script` whose phases complete without an uncaught
exception writes the `completed` marker, the early threshold stop
included. -/
theorem failure_threshold_stop_amended :
    (∀ (kw aud : String) (env : GenEnv),
      env.setupOk = true → env.raisePoint = RaisePoint.noRaise →
      (generateScript kw aud env).marker = some (markStatus false)) ∧
    (writeChaptersWithVisualization c2Gens "T" "" c2Chapters "S").2 =
      videoMaxFailures c2Chapters.length ∧
    strContains (writeChaptersWithVisualization c2Gens "T" "" c2Chapters "S").1
      "## 1. " = true ∧
    strContains (writeChaptersWithVisualization c2Gens "T" "" c2Chapters "S").1
      "## 2. " = true ∧
    strContains (writeChaptersWithVisualization c2Gens "T" "" c2Chapters "S").1
      "## 5. " = true ∧
    strContains (writeChaptersWithVisualization c2Gens "T" "" c2Chapters "S").1
      "## 6. " = false := by
  refine ⟨?_, by decide, by decide, by decide, by decide, by decide⟩
  intro kw aud env h1 h2
  rcases env with ⟨so, rp, tl, sl, cg, sm, pc, et⟩
  dsimp at h1 h2
  subst h1
  subst h2
  rfl

theorem failure_threshold_stop_amended_witness :
    (generateScript "K" "beginner" c2Env).marker = some (markStatus false) :=
  failure_threshold_stop_amended.1 "K" "beginner" c2Env rfl rfl

/-! ### Claim C10 — shape of the `generate_script` result -/

theorem pyOr_ne (s d : String) (hd : d ≠ "") : pyOr s d ≠ "" := by
  unfold pyOr
  by_cases h : s = ""
  · rw [if_pos h]
    exact hd
  · rw [if_neg h]
    exact h

theorem writeChapters_content_ne (gens : Nat → Nat → Option String)
    (t cc : String) (chs : List Chapter) (s : String) :
    (writeChaptersWithVisualization gens t cc chs s).1 ≠ "" := by
  simp only [writeChaptersWithVisualization]
  exact str_append_ne_left _ _ (str_append_ne_right _ _ (by decide))

theorem generateScriptErrorPath_shape (kw aud : String) (sg : List String)
    (sel : String) (chs : List Chapter) (cc e : String) :
    ((generateScriptErrorPath kw aud sg sel chs cc e).1.map Prod.fst =
      ["keyword", "audience_level", "suggested_titles", "script",
       "enhanced_script", "manim_code_blocks"]) ∧
    ∃ s, (generateScriptErrorPath kw aud sg sel chs cc e).1.lookup "script" =
        some (DVal.s s) ∧
      (generateScriptErrorPath kw aud sg sel chs cc e).1.lookup "enhanced_script" =
        some (DVal.s s) ∧ s ≠ "" := by
  refine ⟨rfl, _, rfl, rfl, ?_⟩
  exact pyOr_ne _ _ (str_append_ne_right _ _ (by decide))

/-- The environment refuting Claim C10: `_setup_output_files` fails in
both its primary branch and its `except` fallback (e.g. `mkdir` raises
in both), and it is called at line 67, OUTSIDE the `try` block. -/
def c10BadEnv : GenEnv :=
  { setupOk := false, raisePoint := RaisePoint.noRaise, titlesLLM := none,
    structLLM := none, chapterGens := fun _ _ => none, summaryLLM := none,
    partialCC := "", errText := "cancelled" }

/-- Claim C10 is FALSE as stated: `generate_script` CAN propagate an
exception, because `self._setup_output_files()` runs before the `try`
block and its own `except` fallback (lines 163-174) re-runs `mkdir`
unprotected — when both fail, the exception escapes the call and no
dictionary is returned. -/
theorem generate_script_can_propagate :
    (generateScript "K" "beginner" c10BadEnv).outcome = Except.error () := rfl

/-- Claim C10 (amended): provided the output-file setup phase completes,
`generate_script` never propagates an exception — whichever internal
phase raises, it returns a dictionary with exactly the keys `keyword`,
`audience_level`, `suggested_titles`, `script`, `enhanced_script`,
`manim_code_blocks` (in this order), where `script` is a non-empty
string and is the same string as `enhanced_script`, on the success and
the error path alike. -/
theorem generate_script_result_shape (kw aud : String) (env : GenEnv)
    (h : env.setupOk = true) :
    ∃ d, (generateScript kw aud env).outcome = Except.ok d ∧
      d.map Prod.fst =
        ["keyword", "audience_level", "suggested_titles", "script",
         "enhanced_script", "manim_code_blocks"] ∧
      ∃ s, d.lookup "script" = some (DVal.s s) ∧
        d.lookup "enhanced_script" = some (DVal.s s) ∧ s ≠ "" := by
  rcases env with ⟨so, rp, tl, sl, cg, sm, pc, et⟩
  dsimp at h
  subst h
  cases rp with
  | titles =>
    exact ⟨_, rfl, (generateScriptErrorPath_shape kw aud [] "" [] "" et).1,
      (generateScriptErrorPath_shape kw aud [] "" [] "" et).2⟩
  | structPhase =>
    exact ⟨_, rfl,
      (generateScriptErrorPath_shape kw aud (generateTitles kw tl).1
        (generateTitles kw tl).2 [] "" et).1,
      (generateScriptErrorPath_shape kw aud (generateTitles kw tl).1
        (generateTitles kw tl).2 [] "" et).2⟩
  | chapters =>
    exact ⟨_, rfl,
      (generateScriptErrorPath_shape kw aud (generateTitles kw tl).1
        (generateTitles kw tl).2 (chapterStructureOr sl) pc et).1,
      (generateScriptErrorPath_shape kw aud (generateTitles kw tl).1
        (generateTitles kw tl).2 (chapterStructureOr sl) pc et).2⟩
  | noRaise =>
    refine ⟨_, rfl, rfl, _, rfl, rfl, ?_⟩
    exact writeChapters_content_ne cg (generateTitles kw tl).2 ""
      (chapterStructureOr sl) (summaryOr kw sm)

/-- Environment for the witness: the titles phase is interrupted by an
uncaught (non-`Exception`) error, everything else untouched. -/
def c10OkEnv : GenEnv :=
  { setupOk := true, raisePoint := RaisePoint.titles, titlesLLM := none,
    structLLM := none, chapterGens := fun _ _ => none, summaryLLM := none,
    partialCC := "", errText := "boom" }

theorem generate_script_result_shape_witness :
    ∃ d, (generateScript "K" "beginner" c10OkEnv).outcome = Except.ok d ∧
      d.map Prod.fst =
        ["keyword", "audience_level", "suggested_titles", "script",
         "enhanced_script", "manim_code_blocks"] ∧
      ∃ s, d.lookup "script" = some (DVal.s s) ∧
        d.lookup "enhanced_script" = some (DVal.s s) ∧ s ≠ "" :=
  generate_script_result_shape "K" "beginner" c10OkEnv rfl
